import Mathlib

/-
  Verification development for mysqlstructdump (src/database_inspector.rs,
  src/main.rs): a shallow embedding of the inspector's record types, their
  Display implementations, the two catalog queries and their error behaviour,
  together with theorems settling the specification's claims about them.
-/

set_option maxRecDepth 8000

/-! ## Rust formatter semantics

`format!` width specifiers: `{:w}` on a string is left-aligned (padded with
spaces on the right), `{:>w}` is right-aligned, and `{:w}` on an integer is
right-aligned by default.  Widths are minimums: a value longer than the width
is emitted unchanged. -/

/-- `n` space characters. -/
def spaces (n : Nat) : String := String.mk (List.replicate n ' ')

/-- Rust `{:w}` on a string: left-aligned in a `w`-character minimum field. -/
def padRight (w : Nat) (s : String) : String := s ++ spaces (w - s.length)

/-- Rust `{:>w}` on a string, and `{:w}` on an unsigned integer:
right-aligned in a `w`-character minimum field. -/
def padLeft (w : Nat) (s : String) : String := spaces (w - s.length) ++ s

/-! ## Record types (database_inspector.rs lines 10-17 and 46-53)

`u32` fields carry no arithmetic in this program (they are only rendered in
decimal), so they are embedded as `Nat`. -/

/-- `struct TableList` (database_inspector.rs lines 11-17). -/
structure TableList where
  table_name : String
  table_type : String
  table_rows : Option Nat
  index_length : Option Nat
  auto_increment : Option Nat

/-- The local `table_type` binding of `impl Display for TableList`
(lines 21-25): raw catalog type mapped to a display label. -/
def TableList.fmtTableType (t : TableList) : String :=
  match t.table_type with
  | "BASE TABLE" => "TABLE"
  | "VIEW" => "VIEW"
  | _ => "UNKNOWN"

/-- The local `table_rows` binding (lines 27-30): `format!("\x7b:5\x7d", o)`
when present (integers right-align), `format!("\x7b:>5\x7d", "no")` when absent. -/
def TableList.fmtTableRows (t : TableList) : String :=
  match t.table_rows with
  | some o => padLeft 5 (Nat.repr o)
  | none => padLeft 5 "no"

/-- The local `index_length` binding (lines 32-35). -/
def TableList.fmtIndexLength (t : TableList) : String :=
  match t.index_length with
  | some o => padLeft 12 (Nat.repr o)
  | none => padLeft 12 "no"

/-- The local `auto_increment` binding (lines 37-40): the value rendered in
decimal when present, the literal `"x"` otherwise. -/
def TableList.fmtAutoIncrement (t : TableList) : String :=
  match t.auto_increment with
  | some a => Nat.repr a
  | none => "x"

/-- The `write!` of `impl Display for TableList` (line 42):
`"\x7b:5\x7d \x7b:>15\x7d | \x7b\x7d rows | \x7b\x7d bytes | \x7b\x7d"` applied to the four local
bindings and `self.table_name`. -/
def TableList.fmt (t : TableList) : String :=
  padRight 5 t.fmtTableType ++ " " ++ padLeft 15 t.table_name ++ " | " ++
    t.fmtTableRows ++ " rows | " ++ t.fmtIndexLength ++ " bytes | " ++
    t.fmtAutoIncrement

/-- `struct ColumnInfo` (database_inspector.rs lines 47-53). -/
structure ColumnInfo where
  table_name : String
  column_name : String
  is_nullable : String
  column_type : String
  column_key : Option String

/-- The local `nullable` binding of `impl Display for ColumnInfo`
(lines 57-61). -/
def ColumnInfo.fmtNullable (c : ColumnInfo) : String :=
  match c.is_nullable with
  | "YES" => ""
  | "NO" => "NOT NULL"
  | a => a

/-- The local `column_key` binding (lines 63-66). -/
def ColumnInfo.fmtColumnKey (c : ColumnInfo) : String :=
  match c.column_key with
  | some key => key
  | none => ""

/-- The `write!` of `impl Display for ColumnInfo` (line 68):
`"\x7b:15\x7d \x7b:>15\x7d | \x7b\x7d | \x7b\x7d | \x7b\x7d"`. -/
def ColumnInfo.fmt (c : ColumnInfo) : String :=
  padRight 15 c.table_name ++ " " ++ padLeft 15 c.column_name ++ " | " ++
    c.column_type ++ " | " ++ c.fmtNullable ++ " | " ++ c.fmtColumnKey

/-! ## The two SQL queries (database_inspector.rs lines 80-94 and 98-113) -/

/-- The raw SQL literal of `get_tables` (lines 80-89), byte for byte. -/
def tablesSql : String := "\n    select\n        TABLE_NAME      as  table_name,\n        TABLE_TYPE      as table_type,\n        TABLE_ROWS      as table_rows,\n        INDEX_LENGTH    as index_length,\n        AUTO_INCREMENT  as auto_increment\n    from information_schema.tables\n    where table_schema=?\n        "

/-- The raw SQL literal of `get_columns_infos` (lines 98-108), byte for byte. -/
def columnsSql : String := "\nselect\n    TABLE_NAME      as table_name,\n    COLUMN_NAME     as column_name,\n    IS_NULLABLE     as is_nullable,\n    COLUMN_TYPE     as column_type,\n    COLUMN_KEY      as column_key\nfrom information_schema.COLUMNS\nwhere TABLE_SCHEMA=?\norder by TABLE_NAME asc, ORDINAL_POSITION asc\n        "

/-- The schema-name literal passed to `.bind` in both queries
(lines 92 and 111). -/
def targetSchema : String := "akeneo_pim"

/-- A built sqlx query: the SQL text together with its bound parameters, as
assembled by `sqlx::query_as(sql).bind(...)`. -/
structure BoundQuery where
  sql : String
  binds : List String

/-- The query `get_tables` hands to the driver (lines 91-92). -/
def tablesQuery : BoundQuery := { sql := tablesSql, binds := [targetSchema] }

/-- The query `get_columns_infos` hands to the driver (lines 110-111). -/
def columnsQuery : BoundQuery := { sql := columnsSql, binds := [targetSchema] }

/-! ## Connection, errors and panics

`DatabaseInspector::new`, `get_tables` and `get_columns_infos` all call
`.unwrap()` on a `Result` from sqlx.  `PanicOr` is the outcome type of such a
call: either the unwrapped value or a panic that aborts the process.  The
interaction with the external MySQL server is a parameter: `new` receives the
outcome of `MySqlPool::new(url)`, and each query function receives the
driver's `fetch_all` as a function of the built query. -/

/-- Error values of the sqlx driver, restricted to the two kinds the
specification distinguishes. -/
inductive SqlxError where
  | connectionError
  | queryError
deriving DecidableEq

/-- Stand-in for `sqlx::mysql::MySqlPool`, identified by the connection url
it was built from. -/
structure MySqlPool where
  url : String

/-- `struct DatabaseInspector` (database_inspector.rs lines 6-8). -/
structure DatabaseInspector where
  pool : MySqlPool

/-- Outcome of a Rust computation that may `panic!`: `panicked` models the
process aborting, which returns no value of any kind to the caller. -/
inductive PanicOr (α : Type) where
  | ok (val : α)
  | panicked
deriving DecidableEq

/-- `DatabaseInspector::new` (lines 73-77): `block_on(MySqlPool::new(url)).unwrap()`
then wrap the pool.  `connect` is the outcome of the pool construction; the
`.unwrap()` turns its error case into a panic. -/
def DatabaseInspector.new (connect : Except SqlxError MySqlPool) :
    PanicOr DatabaseInspector :=
  match connect with
  | Except.ok pool => PanicOr.ok { pool := pool }
  | Except.error _ => PanicOr.panicked

/-- `DatabaseInspector::get_tables` (lines 79-95): builds `tablesQuery`, runs
the driver's `fetch_all` on it, and `.unwrap()`s the result. -/
def DatabaseInspector.get_tables
    (fetch_all : BoundQuery → Except SqlxError (List TableList)) :
    PanicOr (List TableList) :=
  match fetch_all tablesQuery with
  | Except.ok rows => PanicOr.ok rows
  | Except.error _ => PanicOr.panicked

/-- `DatabaseInspector::get_columns_infos` (lines 97-114): builds
`columnsQuery`, runs the driver's `fetch_all` on it, and `.unwrap()`s the
result. -/
def DatabaseInspector.get_columns_infos
    (fetch_all : BoundQuery → Except SqlxError (List ColumnInfo)) :
    PanicOr (List ColumnInfo) :=
  match fetch_all columnsQuery with
  | Except.ok rows => PanicOr.ok rows
  | Except.error _ => PanicOr.panicked

/-! ## SQL semantics of the columns query

The server evaluates `columnsSql` against the catalog view
`information_schema.COLUMNS`.  A catalog row carries the selected columns
plus the two columns the query filters and sorts on. -/

/-- A row of `information_schema.COLUMNS`, restricted to the columns
`columnsSql` mentions. -/
structure CatalogColumn where
  table_schema : String
  table_name : String
  column_name : String
  is_nullable : String
  column_type : String
  column_key : Option String
  ordinal_position : Nat

/-- The sort key of `order by TABLE_NAME asc, ORDINAL_POSITION asc`:
lexicographic on (table name, ordinal position). -/
def colKeyLe (a b : CatalogColumn) : Prop :=
  a.table_name < b.table_name ∨
    (a.table_name = b.table_name ∧ a.ordinal_position ≤ b.ordinal_position)

instance : DecidableRel colKeyLe := fun a b => by
  unfold colKeyLe
  infer_instance

instance : IsTotal CatalogColumn colKeyLe := by
  constructor
  intro a b
  rcases lt_trichotomy a.table_name b.table_name with h | h | h
  · exact Or.inl (Or.inl h)
  · rcases Nat.le_total a.ordinal_position b.ordinal_position with hle | hle
    · exact Or.inl (Or.inr ⟨h, hle⟩)
    · exact Or.inr (Or.inr ⟨h.symm, hle⟩)
  · exact Or.inr (Or.inl h)

instance : IsTrans CatalogColumn colKeyLe := by
  constructor
  intro a b c hab hbc
  rcases hab with h1 | ⟨he1, ho1⟩
  · rcases hbc with h2 | ⟨he2, _⟩
    · exact Or.inl (h1.trans h2)
    · exact Or.inl (he2 ▸ h1)
  · rcases hbc with h2 | ⟨he2, ho2⟩
    · exact Or.inl (he1 ▸ h2)
    · exact Or.inr ⟨he1.trans he2, ho1.trans ho2⟩

/-- Evaluation of `columnsSql` by the server: keep the rows of the bound
schema (`where TABLE_SCHEMA=?`), then sort by the `order by` key. -/
def runColumnsQuery (db : List CatalogColumn) (schema : String) :
    List CatalogColumn :=
  List.insertionSort colKeyLe (db.filter (fun r => r.table_schema == schema))

/-- The `select` projection of `columnsSql` combined with sqlx's
`FromRow` mapping into `ColumnInfo`. -/
def toColumnInfo (r : CatalogColumn) : ColumnInfo :=
  { table_name := r.table_name
    column_name := r.column_name
    is_nullable := r.is_nullable
    column_type := r.column_type
    column_key := r.column_key }

/-- `get_columns_infos` seen through the SQL semantics: the rows the driver
delivers for `columnsQuery` on catalog state `db`, already projected to
`ColumnInfo`. -/
def DatabaseInspector.get_columns_infos_sem (db : List CatalogColumn) :
    List ColumnInfo :=
  (runColumnsQuery db targetSchema).map toColumnInfo

/-! ## Substring occurrence (for inspecting the SQL texts) -/

/-- `startsWithL needle hay`: `needle` is an initial segment of `hay`. -/
def startsWithL : List Char → List Char → Bool
  | [], _ => true
  | _ :: _, [] => false
  | a :: as, b :: bs => a == b && startsWithL as bs

/-- `occursInL needle hay`: `needle` occurs contiguously somewhere in `hay`. -/
def occursInL (needle : List Char) : List Char → Bool
  | [] => startsWithL needle []
  | b :: bs => startsWithL needle (b :: bs) || occursInL needle bs

/-- `occursIn hay needle`: `needle` is a contiguous substring of `hay`. -/
def occursIn (hay needle : String) : Bool := occursInL needle.data hay.data

/-! ## Claim-side definitions, written from the specification's words -/

/-- Spec: raw `table_type` is "mapped at display time": `"BASE TABLE"` to
`"TABLE"`, `"VIEW"` to `"VIEW"`, anything else to `"UNKNOWN"`. -/
def typeLabelOf (raw : String) : String :=
  if raw = "BASE TABLE" then "TABLE"
  else if raw = "VIEW" then "VIEW"
  else "UNKNOWN"

/-- Spec: nullability label is empty when `is_nullable` is `"YES"`, the
literal `"NOT NULL"` when it is `"NO"`, and the raw value verbatim
otherwise. -/
def nullLabelOf (raw : String) : String :=
  if raw = "YES" then ""
  else if raw = "NO" then "NOT NULL"
  else raw

/-- Spec: key role is the empty string when `column_key` is absent and the
raw value otherwise. -/
def keyRoleOf (k : Option String) : String :=
  match k with
  | some key => key
  | none => ""

/-- Spec: row count right-aligned in a 5-character field, the literal `"no"`
right-aligned when absent. -/
def rowCountFieldOf (r : Option Nat) : String :=
  match r with
  | some n => padLeft 5 (Nat.repr n)
  | none => padLeft 5 "no"

/-- Spec: index length right-aligned in a 12-character field, the literal
`"no"` when absent. -/
def indexLengthFieldOf (i : Option Nat) : String :=
  match i with
  | some n => padLeft 12 (Nat.repr n)
  | none => padLeft 12 "no"

/-- Claim C1's rendering of the auto-increment flag: `"Y"` exactly when the
underlying value is `some 1`, else `"N"`.  (The code disagrees; see the C1
counterexample.) -/
def autoFlagClaimed (o : Option Nat) : String :=
  if o = some 1 then "Y" else "N"

/-- C1 amended: the auto-increment field actually rendered — the decimal
representation of the value when present, the literal `"x"` when absent. -/
def autoFieldActual (o : Option Nat) : String :=
  match o with
  | some a => Nat.repr a
  | none => "x"

/-! ## Concrete sample inputs used by counterexamples and witnesses -/

/-- A base table whose `auto_increment` is exactly `1` (the `pika` table of
the repository's own test). -/
def pikaTable : TableList :=
  { table_name := "pika"
    table_type := "BASE TABLE"
    table_rows := some 1
    index_length := some 0
    auto_increment := some 1 }

/-- A base table with every optional field absent (the `chu` table of the
repository's own test, before `analyze`). -/
def chuTable : TableList :=
  { table_name := "chu"
    table_type := "BASE TABLE"
    table_rows := none
    index_length := none
    auto_increment := none }

/-- A view record (the `john` view of the repository's own test). -/
def johnView : TableList :=
  { table_name := "john"
    table_type := "VIEW"
    table_rows := none
    index_length := none
    auto_increment := none }

/-- A table record whose name exceeds the 15-character field width. -/
def longTable : TableList :=
  { table_name := "a_very_long_table_name"
    table_type := "BASE TABLE"
    table_rows := some 3
    index_length := some 1024
    auto_increment := none }

/-- A column record whose table and column names exceed the 15-character
field widths. -/
def longColumn : ColumnInfo :=
  { table_name := "a_very_long_table_name"
    column_name := "a_very_long_column_name"
    is_nullable := "NO"
    column_type := "int(11)"
    column_key := some "PRI" }

/-- A driver that fails every table query with a `QueryError`. -/
def failingTablesExec : BoundQuery → Except SqlxError (List TableList) :=
  fun _ => Except.error SqlxError.queryError

/-- A driver that fails every column query with a `QueryError`. -/
def failingColumnsExec : BoundQuery → Except SqlxError (List ColumnInfo) :=
  fun _ => Except.error SqlxError.queryError

/-- A driver that answers every table query with the single row
`pikaTable`. -/
def okTablesExec : BoundQuery → Except SqlxError (List TableList) :=
  fun _ => Except.ok [pikaTable]

/-- Substring needles inspected in the SQL texts. -/
def orderLower : String := "order"

def orderUpper : String := "ORDER"

def whereTablesClause : String := "where table_schema=?"

def whereColumnsClause : String := "where TABLE_SCHEMA=?"

def orderByClause : String := "order by TABLE_NAME asc, ORDINAL_POSITION asc"

/-- The needle `"Y"` of claim C1. -/
def flagY : String := "Y"

/-- The needle `"N"` of claim C1. -/
def flagN : String := "N"

/-! ## Helper lemmas -/

theorem append_empty_str (s : String) : s ++ "" = s := by
  cases s
  simp [String.append]

theorem empty_append_str (s : String) : "" ++ s = s := by
  cases s
  simp [String.append]

/-- A width that the string already fills leaves `padRight` the identity:
widths are minimums, never truncations. -/
theorem padRight_of_le {w : Nat} {s : String} (h : w ≤ s.length) :
    padRight w s = s := by
  unfold padRight
  rw [Nat.sub_eq_zero_of_le h]
  exact append_empty_str s

/-- A width that the string already fills leaves `padLeft` the identity. -/
theorem padLeft_of_le {w : Nat} {s : String} (h : w ≤ s.length) :
    padLeft w s = s := by
  unfold padLeft
  rw [Nat.sub_eq_zero_of_le h]
  exact empty_append_str s

/-- The source's `table_type` match agrees with the specification's
display-time mapping. -/
theorem fmtTableType_eq (t : TableList) :
    t.fmtTableType = typeLabelOf t.table_type := by
  unfold TableList.fmtTableType typeLabelOf
  split
  · rename_i h
    simp [h]
  · rename_i h
    simp [h]
  · rename_i h1 h2
    rw [if_neg h1, if_neg h2]

/-- The source's `nullable` match agrees with the specification's
nullability label. -/
theorem fmtNullable_eq (c : ColumnInfo) :
    c.fmtNullable = nullLabelOf c.is_nullable := by
  unfold ColumnInfo.fmtNullable nullLabelOf
  split
  · rename_i h
    simp [h]
  · rename_i h
    simp [h]
  · rename_i h1 h2
    rw [if_neg h1, if_neg h2]

theorem fmtColumnKey_eq (c : ColumnInfo) :
    c.fmtColumnKey = keyRoleOf c.column_key := rfl

theorem fmtTableRows_eq (t : TableList) :
    t.fmtTableRows = rowCountFieldOf t.table_rows := rfl

theorem fmtIndexLength_eq (t : TableList) :
    t.fmtIndexLength = indexLengthFieldOf t.index_length := rfl

/-! ## Claim theorems -/

/-- Claim C1 counterexample: the claim says the auto-increment flag renders
as `"Y"` when the value is exactly `1` and `"N"` otherwise.  On `pikaTable`
(`auto_increment = some 1`) the rendered line ends in `"1"` and contains no
`"Y"` at all; on `chuTable` (`auto_increment` absent) the line ends in `"x"`
and contains no `"N"`.  The code renders the raw value in decimal, or `"x"`
when absent — never `"Y"`/`"N"`. -/
theorem c1_auto_flag_counterexample :
    TableList.fmt pikaTable =
      "TABLE            pika |     1 rows |            0 bytes | 1" ∧
    autoFlagClaimed pikaTable.auto_increment = flagY ∧
    occursIn (TableList.fmt pikaTable) flagY = false ∧
    autoFlagClaimed chuTable.auto_increment = flagN ∧
    occursIn (TableList.fmt chuTable) flagN = false :=
  ⟨rfl, rfl, rfl, rfl, rfl⟩

/-- Claim C1 (amended): rendering a `TableRecord` shows the auto-increment
field as the decimal representation of the underlying value when it is
present (in particular `"1"` when the value is exactly `1`), and as the
literal `"x"` when it is absent. -/
theorem c1_auto_flag_amended (t : TableList) :
    t.fmtAutoIncrement = autoFieldActual t.auto_increment ∧
    t.fmt = padRight 5 t.fmtTableType ++ " " ++ padLeft 15 t.table_name ++
      " | " ++ t.fmtTableRows ++ " rows | " ++ t.fmtIndexLength ++
      " bytes | " ++ autoFieldActual t.auto_increment :=
  ⟨rfl, rfl⟩

/-- Claim C2 counterexample: with the pool construction failing with a
`ConnectionError` (unreachable address, bad credentials, or malformed url),
`DatabaseInspector::new` panics — the `.unwrap()` aborts the process — so no
`ConnectionError` value is returned to the caller, contradicting the claim
that the constructor returns the error rather than panicking. -/
theorem c2_connection_error_counterexample :
    DatabaseInspector.new (Except.error SqlxError.connectionError) =
      PanicOr.panicked := rfl

/-- Claim C2 (amended): whenever pool construction fails, `new` panics
(aborting the process with a non-zero exit) instead of returning a
`ConnectionError` value; on success it returns the provider wrapping the
pool.  Its Rust return type is `DatabaseInspector`, with no error channel. -/
theorem c2_connection_error_amended :
    (∀ e, DatabaseInspector.new (Except.error e) = PanicOr.panicked) ∧
    (∀ pool, DatabaseInspector.new (Except.ok pool) =
      PanicOr.ok { pool := pool }) :=
  ⟨fun _ => rfl, fun _ => rfl⟩

/-- Claim C3 counterexample: when the driver fails the query, `get_tables`
and `get_columns_infos` panic via `.unwrap()` — the caller never observes a
`QueryError` as an error value it could handle, contradicting the claim. -/
theorem c3_query_error_counterexample :
    DatabaseInspector.get_tables failingTablesExec = PanicOr.panicked ∧
    DatabaseInspector.get_columns_infos failingColumnsExec =
      PanicOr.panicked :=
  ⟨rfl, rfl⟩

/-- Claim C3 (amended): when the underlying query cannot execute,
`get_tables` / `get_columns_infos` panic (aborting the invocation) rather
than propagating a `QueryError` value; no partial result sequence is ever
returned — on success the full fetched row list is returned, on failure
nothing is. -/
theorem c3_query_error_amended
    (execT : BoundQuery → Except SqlxError (List TableList))
    (execC : BoundQuery → Except SqlxError (List ColumnInfo)) :
    (∀ e, execT tablesQuery = Except.error e →
      DatabaseInspector.get_tables execT = PanicOr.panicked) ∧
    (∀ e, execC columnsQuery = Except.error e →
      DatabaseInspector.get_columns_infos execC = PanicOr.panicked) ∧
    (∀ rows, execT tablesQuery = Except.ok rows →
      DatabaseInspector.get_tables execT = PanicOr.ok rows) ∧
    (∀ rows, execC columnsQuery = Except.ok rows →
      DatabaseInspector.get_columns_infos execC = PanicOr.ok rows) := by
  refine ⟨?_, ?_, ?_, ?_⟩ <;> intro x h <;>
    simp [DatabaseInspector.get_tables, DatabaseInspector.get_columns_infos, h]

/-- Witness for claim C3's amended theorem at concrete drivers: a failing
driver makes `get_tables` panic, a succeeding one yields its rows. -/
theorem c3_query_error_amended_witness :
    DatabaseInspector.get_tables failingTablesExec = PanicOr.panicked ∧
    DatabaseInspector.get_tables okTablesExec = PanicOr.ok [pikaTable] :=
  ⟨(c3_query_error_amended failingTablesExec failingColumnsExec).1
      SqlxError.queryError rfl,
   (c3_query_error_amended okTablesExec failingColumnsExec).2.2.1
      [pikaTable] rfl⟩

/-- Claim C4: the displayed type label is exactly the mapping of the raw
`table_type`: `"BASE TABLE"` to `"TABLE"`, `"VIEW"` to `"VIEW"`, everything
else to `"UNKNOWN"`; the label occupies the first (5-character minimum)
field of the rendered line, and a record whose raw type is `"VIEW"` gets the
label `"VIEW"` regardless of its other fields (the mapping consults only
`table_type`). -/
theorem c4_type_label (t : TableList) :
    t.fmtTableType = typeLabelOf t.table_type ∧
    t.fmt = padRight 5 (typeLabelOf t.table_type) ++ " " ++
      padLeft 15 t.table_name ++ " | " ++ t.fmtTableRows ++ " rows | " ++
      t.fmtIndexLength ++ " bytes | " ++ t.fmtAutoIncrement ∧
    (t.table_type = "VIEW" → typeLabelOf t.table_type = "VIEW") := by
  have h := fmtTableType_eq t
  refine ⟨h, ?_, ?_⟩
  · unfold TableList.fmt
    rw [h]
  · intro hv
    rw [hv]
    decide

/-- Witness for claim C4 at the view record `johnView`. -/
theorem c4_type_label_witness :
    typeLabelOf johnView.table_type = "VIEW" ∧
    TableList.fmt johnView = padRight 5 (typeLabelOf johnView.table_type) ++
      " " ++ padLeft 15 johnView.table_name ++ " | " ++
      johnView.fmtTableRows ++ " rows | " ++ johnView.fmtIndexLength ++
      " bytes | " ++ johnView.fmtAutoIncrement :=
  ⟨(c4_type_label johnView).2.2 rfl, (c4_type_label johnView).2.1⟩

/-- Claim C5: rendering a `ColumnRecord` produces the table name
left-aligned in a 15-character field, the column name right-aligned in a
15-character field, then, `" | "`-delimited: the column type verbatim, the
nullability label (empty for `"YES"`, `"NOT NULL"` for `"NO"`, the raw value
verbatim otherwise), and the key role (empty when absent, raw value
otherwise). -/
theorem c5_column_rendering (c : ColumnInfo) :
    c.fmt = padRight 15 c.table_name ++ " " ++ padLeft 15 c.column_name ++
      " | " ++ c.column_type ++ " | " ++ nullLabelOf c.is_nullable ++
      " | " ++ keyRoleOf c.column_key := by
  unfold ColumnInfo.fmt
  rw [fmtNullable_eq, fmtColumnKey_eq]

/-- Claim C6: rendering a `TableRecord` produces, in order, the mapped type
label in a 5-character field, the table name right-aligned in a 15-character
field, the row count right-aligned in a 5-character field (`"no"`
right-aligned when absent) followed by the literal `" rows | "`, and the
index length right-aligned in a 12-character field (`"no"` when absent)
followed by the literal `" bytes | "`.  (A single space separates the label
from the name, and `" | "` separates the name from the row count.) -/
theorem c6_table_rendering (t : TableList) :
    t.fmt = padRight 5 (typeLabelOf t.table_type) ++ " " ++
      padLeft 15 t.table_name ++ " | " ++ rowCountFieldOf t.table_rows ++
      " rows | " ++ indexLengthFieldOf t.index_length ++ " bytes | " ++
      t.fmtAutoIncrement := by
  unfold TableList.fmt
  rw [fmtTableType_eq, fmtTableRows_eq, fmtIndexLength_eq]

/-- Claim C7: for every catalog state, the column rows delivered for the
columns query are sorted by table name ascending and, within a table, by
ordinal position ascending (the `order by` of `columnsSql`, whose clause is
literally present in the query text); the returned `ColumnInfo` sequence is
their order-preserving projection, hence grouped by nondecreasing table
name — never an arbitrary order. -/
theorem c7_columns_ordering (db : List CatalogColumn) :
    DatabaseInspector.get_columns_infos_sem db =
      (runColumnsQuery db targetSchema).map toColumnInfo ∧
    List.Sorted colKeyLe (runColumnsQuery db targetSchema) ∧
    List.Sorted (fun a b : ColumnInfo => a.table_name ≤ b.table_name)
      (DatabaseInspector.get_columns_infos_sem db) ∧
    occursIn columnsSql orderByClause = true := by
  have hs : List.Sorted colKeyLe (runColumnsQuery db targetSchema) :=
    List.sorted_insertionSort colKeyLe _
  refine ⟨rfl, hs, ?_, by rfl⟩
  unfold DatabaseInspector.get_columns_infos_sem
  rw [List.Sorted, List.pairwise_map]
  refine hs.imp ?_
  intro a b hab
  rcases hab with h1 | ⟨he, _⟩
  · exact le_of_lt h1
  · exact le_of_eq he

/-- Claim C8: the tables query requests no ordering — its SQL text contains
no `order` / `ORDER` token — and `get_tables` returns exactly the row list
the driver delivers, unreordered. -/
theorem c8_tables_no_ordering :
    occursIn tablesSql orderLower = false ∧
    occursIn tablesSql orderUpper = false ∧
    (∀ (fetch_all : BoundQuery → Except SqlxError (List TableList)) rows,
      fetch_all tablesQuery = Except.ok rows →
      DatabaseInspector.get_tables fetch_all = PanicOr.ok rows) := by
  refine ⟨by rfl, by rfl, ?_⟩
  intro f rows h
  simp [DatabaseInspector.get_tables, h]

/-- Witness for claim C8 at a concrete driver delivering one row. -/
theorem c8_tables_no_ordering_witness :
    DatabaseInspector.get_tables okTablesExec = PanicOr.ok [pikaTable] :=
  c8_tables_no_ordering.2.2 okTablesExec [pikaTable] rfl

/-- Claim C9: both queries bind the same fixed schema literal
`"akeneo_pim"`, baked into the query layer (the bound-parameter lists are
constants, not runtime inputs), and both SQL texts filter on the bound
schema parameter. -/
theorem c9_fixed_schema :
    tablesQuery.binds = [targetSchema] ∧
    columnsQuery.binds = [targetSchema] ∧
    tablesQuery.binds = columnsQuery.binds ∧
    targetSchema = "akeneo_pim" ∧
    occursIn tablesSql whereTablesClause = true ∧
    occursIn columnsSql whereColumnsClause = true :=
  ⟨rfl, rfl, rfl, rfl, rfl, rfl⟩

/-- Claim C10: the field widths are minimums, not truncations: a table or
column name longer than its 15-character field is rendered whole (the padded
field degenerates to the bare name), and every literal delimiter is still
present in the line. -/
theorem c10_min_widths :
    (∀ t : TableList, 15 < t.table_name.length →
      t.fmt = padRight 5 t.fmtTableType ++ " " ++ t.table_name ++ " | " ++
        t.fmtTableRows ++ " rows | " ++ t.fmtIndexLength ++ " bytes | " ++
        t.fmtAutoIncrement) ∧
    (∀ c : ColumnInfo, 15 < c.table_name.length →
      15 < c.column_name.length →
      c.fmt = c.table_name ++ " " ++ c.column_name ++ " | " ++
        c.column_type ++ " | " ++ c.fmtNullable ++ " | " ++
        c.fmtColumnKey) := by
  constructor
  · intro t h
    unfold TableList.fmt
    rw [padLeft_of_le (le_of_lt h)]
  · intro c h1 h2
    unfold ColumnInfo.fmt
    rw [padRight_of_le (le_of_lt h1), padLeft_of_le (le_of_lt h2)]

/-- Witness for claim C10 at records with 22- and 23-character names. -/
theorem c10_min_widths_witness :
    TableList.fmt longTable = padRight 5 longTable.fmtTableType ++ " " ++
      longTable.table_name ++ " | " ++ longTable.fmtTableRows ++
      " rows | " ++ longTable.fmtIndexLength ++ " bytes | " ++
      longTable.fmtAutoIncrement ∧
    ColumnInfo.fmt longColumn = longColumn.table_name ++ " " ++
      longColumn.column_name ++ " | " ++ longColumn.column_type ++ " | " ++
      longColumn.fmtNullable ++ " | " ++ longColumn.fmtColumnKey :=
  ⟨c10_min_widths.1 longTable (by decide),
   c10_min_widths.2 longColumn (by decide) (by decide)⟩
